import Mathlib

/-!
Formal model of the request-trust control plane of a browser-based PDF-tools
product: the browser-side rate limiter (src/js/security.js), the bot-detection
middleware and IP block list (src/backend/middleware/botDetection.js), the
express middleware chain of src/backend/server.js, the security status route
(src/backend/routes/security.js), the request log (requestLogger middleware)
and the analytics store (analytics routes).

Times are modelled as natural numbers of milliseconds (values of Date.now);
JS strings as Lean strings (the two agree on the ASCII data involved).  JS
truthiness of a header value is modelled as the value being nonempty, with a
missing header read as the empty string, exactly matching the
`req.headers[h] || ''` idiom of the source.
-/

namespace PdfTools

/-! ## src/js/security.js : SecurityConfig and RateLimiter -/

def RATE_LIMIT_WINDOW : Nat := 60000

def MAX_REQUESTS_PER_WINDOW : Nat := 30

def BLOCK_DURATION : Nat := 300000

structure RLState where
  requests : List Nat
  blocked : Bool
  blockedUntil : Nat
deriving Repr, DecidableEq

structure RLResult where
  allowed : Bool
  reason : Option String := none
  retryAfter : Option Nat := none
  remaining : Option Nat := none
deriving Repr, DecidableEq

/-- The initial RateLimiter object literal: requests [], blocked false,
blockedUntil null (read only when blocked; modelled as 0). -/
def initRLState : RLState := { requests := [], blocked := false, blockedUntil := 0 }

/-- RateLimiter.checkLimit (src/js/security.js lines 28-75), transliterated:
if blocked and now < blockedUntil, reject with retryAfter = ceil of the
remaining ms over 1000; an expired block is cleared together with the request
list; then requests older than RATE_LIMIT_WINDOW are filtered out; if the
surviving count has reached MAX_REQUESTS_PER_WINDOW the limiter escalates into
a block of BLOCK_DURATION ms and rejects with retryAfter = ceil of
BLOCK_DURATION over 1000; otherwise the call time is recorded and the call is
allowed with remaining = MAX_REQUESTS_PER_WINDOW minus the new count. -/
def checkLimit (now : Nat) (s : RLState) : RLResult × RLState :=
  if s.blocked ∧ now < s.blockedUntil then
    ({ allowed := false, reason := some "blocked",
       retryAfter := some ((s.blockedUntil - now + 999) / 1000) }, s)
  else
    let s1 : RLState := if s.blocked then { requests := [], blocked := false, blockedUntil := 0 } else s
    let reqs := s1.requests.filter (fun time => decide (now - time < RATE_LIMIT_WINDOW))
    if MAX_REQUESTS_PER_WINDOW ≤ reqs.length then
      ({ allowed := false, reason := some "rate_limited",
         retryAfter := some ((BLOCK_DURATION + 999) / 1000) },
       { requests := reqs, blocked := true, blockedUntil := now + BLOCK_DURATION })
    else
      ({ allowed := true, remaining := some (MAX_REQUESTS_PER_WINDOW - (reqs.length + 1)) },
       { requests := reqs ++ [now], blocked := s1.blocked, blockedUntil := s1.blockedUntil })

/-- Run a sequence of checkLimit calls at the given times, collecting each
call's result and the final limiter state. -/
def runResults (ts : List Nat) (s : RLState) : List RLResult × RLState :=
  match ts with
  | [] => ([], s)
  | t :: rest =>
    let p := checkLimit t s
    let q := runResults rest p.2
    (p.1 :: q.1, q.2)

/-! ## src/backend/middleware/botDetection.js -/

/-- Whether the first list is a prefix of the second. -/
def listPrefixEq : List Char → List Char → Bool
  | [], _ => true
  | _ :: _, [] => false
  | a :: as, b :: bs => a == b && listPrefixEq as bs

/-- Whether the pattern occurs as a contiguous run of the text. -/
def occursWithin (pat : List Char) : List Char → Bool
  | [] => pat.isEmpty
  | c :: rest => listPrefixEq pat (c :: rest) || occursWithin pat rest

/-- Case-insensitive substring test: the effect of one of the literal,
case-insensitive regexes of botDetection.js tested against a string. -/
def containsCI (s pat : String) : Bool :=
  occursWithin (pat.data.map Char.toLower) (s.data.map Char.toLower)

/-- The literal tokens of the case-insensitive BOT_USER_AGENTS regexes. -/
def BOT_USER_AGENTS : List String :=
  ["bot", "spider", "crawl", "scrape", "curl", "wget", "python-requests",
   "java/", "perl", "ruby", "phantomjs", "headless", "selenium", "puppeteer"]

/-- The literal tokens of the case-insensitive GOOD_BOTS regexes. -/
def GOOD_BOTS : List String :=
  ["googlebot", "bingbot", "slurp", "duckduckbot", "baiduspider", "yandexbot",
   "facebookexternalhit", "twitterbot", "linkedinbot"]

/-- SUSPICIOUS_PATTERNS.suspiciousHeaders. -/
def SUSPICIOUS_HEADERS : List String :=
  ["x-forwarded-host", "x-original-url", "x-rewrite-url"]

/-- SUSPICIOUS_PATTERNS.rapidRequests. -/
def RAPID_THRESHOLD : Nat := 20

/-- An inbound HTTP request as the middleware sees it.  Header names are the
lower-cased names express exposes; a request also carries fields (ip, method,
further headers such as x-request-id) that the bot classifier does not read. -/
structure Request where
  ip : String
  path : String
  method : String := "GET"
  headers : List (String × String)
deriving Repr, DecidableEq

/-- The req.headers[name] || '' idiom: the first header of the given name, or
the empty string when the header is absent.  JS truthiness of a header value
then coincides with the value being nonempty. -/
def headerD (r : Request) (name : String) : String :=
  match r.headers.find? (fun h => h.1 == name) with
  | some h => h.2
  | none => ""

inductive BotType where
  | good
  | bad
  | unknown
deriving Repr, DecidableEq

structure BotInfo where
  isBot : Bool
  botType : BotType
  suspiciousScore : Nat
deriving Repr, DecidableEq

/-- The /mozilla|chrome|safari|firefox|edge|opera/i test. -/
def hasBrowserSignature (userAgent : String) : Bool :=
  ["mozilla", "chrome", "safari", "firefox", "edge", "opera"].any (containsCI userAgent)

/-- analyzeBotSignature (src/backend/middleware/botDetection.js lines
128-189), transliterated: +3 for an empty user-agent; a known-good crawler
token returns isBot/good/score 0 immediately; a known-bad token sets
isBot/bad and +5; +1 for a missing referer off /api/; +2 per present
suspicious header; +2 for a user-agent shorter than 20 characters; +2 for a
nonempty user-agent lacking every browser-engine token.  (String length is
counted in characters; the strings involved are ASCII, where this agrees
with the JS UTF-16 length.) -/
def analyzeBotSignature (req : Request) : BotInfo :=
  let userAgent := headerD req "user-agent"
  let referer := headerD req "referer"
  let score0 : Nat := if userAgent = "" then 3 else 0
  if GOOD_BOTS.any (containsCI userAgent) then
    { isBot := true, botType := .good, suspiciousScore := 0 }
  else
    let isBot := BOT_USER_AGENTS.any (containsCI userAgent)
    let botType : BotType := if isBot then .bad else .unknown
    let s1 := if isBot then score0 + 5 else score0
    let s2 := if referer = "" ∧ ¬ req.path.startsWith "/api/" then s1 + 1 else s1
    let s3 := SUSPICIOUS_HEADERS.foldl
      (fun acc h => if headerD req h ≠ "" then acc + 2 else acc) s2
    let s4 := if userAgent.length < 20 then s3 + 2 else s3
    let s5 := if ¬ hasBrowserSignature userAgent ∧ userAgent ≠ "" then s4 + 2 else s4
    { isBot := isBot, botType := botType, suspiciousScore := s5 }

/-- One entry of the ipRequestCounts map. -/
structure IpData where
  count : Nat
  firstRequest : Nat
  lastRequest : Nat
deriving Repr, DecidableEq

/-- The mutable module state of botDetection.js: the per-IP request counters
and the blocked-IP set (as the list Array.from would produce). -/
structure BDState where
  ipRequestCounts : List (String × IpData)
  blockedIPs : List String
deriving Repr, DecidableEq

/-- Outcome of a middleware or of the whole chain: a structured rejection
(status plus optional retryAfter), or proceeding with the bot verdict that
was attached to the request. -/
inductive GWDecision where
  | reject (status : Nat) (retryAfter : Option Nat)
  | proceed (botInfo : BotInfo)
deriving Repr, DecidableEq

def lookupIp (m : List (String × IpData)) (ip : String) : Option IpData :=
  (m.find? (fun e => e.1 == ip)).map Prod.snd

def setIp (m : List (String × IpData)) (ip : String) (d : IpData) : List (String × IpData) :=
  if m.any (fun e => e.1 == ip) then m.map (fun e => if e.1 == ip then (ip, d) else e)
  else m ++ [(ip, d)]

/-- Lines 80-86 of botDetection.js: fetch the IP's counter (initialising it
to count 0 and window start now when absent), then increment the count and
stamp lastRequest. -/
def bumpedIpData (now : Nat) (req : Request) (st : BDState) : IpData :=
  let ipData0 := (lookupIp st.ipRequestCounts req.ip).getD ⟨0, now, now⟩
  { ipData0 with count := ipData0.count + 1, lastRequest := now }

/-- The botDetection middleware (src/backend/middleware/botDetection.js lines
64-126) at time now: a blocked IP is rejected 403 with the constant
retryAfter 300; then the per-IP counter is bumped and rapid requests (more
than RAPID_THRESHOLD within 10 s of the window start) are rejected 429 with
retryAfter 60 after adding the IP to blockedIPs; a counter older than 10 s is
reset; finally a bad-bot verdict is rejected 403 and anything else proceeds
with the verdict. -/
def botDetection (now : Nat) (req : Request) (st : BDState) : GWDecision × BDState :=
  if st.blockedIPs.contains req.ip then
    (.reject 403 (some 300), st)
  else
    let ipData1 := bumpedIpData now req st
    if now - ipData1.firstRequest < 10000 ∧ ipData1.count > RAPID_THRESHOLD then
      (.reject 429 (some 60),
       { ipRequestCounts := setIp st.ipRequestCounts req.ip ipData1,
         blockedIPs := req.ip :: st.blockedIPs })
    else
      let ipData2 : IpData :=
        if now - ipData1.firstRequest > 10000 then
          { ipData1 with count := 1, firstRequest := now }
        else ipData1
      let st2 : BDState := { st with ipRequestCounts := setIp st.ipRequestCounts req.ip ipData2 }
      let botInfo := analyzeBotSignature req
      if botInfo.isBot ∧ botInfo.botType = .bad then
        (.reject 403 none, st2)
      else
        (.proceed botInfo, st2)

/-! ## src/backend/server.js : the middleware chain -/

/-- The express chain of src/backend/server.js as it bears on the per-request
trust decision: app.use(globalLimiter) at line 70 runs before
app.use(botDetection) at line 96.  The global limiter is the third-party
express-rate-limit instance configured at lines 56-69 (windowMs 60000, max
100, message with retryAfter 60); it is modelled by the boolean
limiterExceeded saying whether the request's key has exhausted max within the
current window, in which case the library replies 429 with the configured
message and the rest of the chain never runs. -/
def gateway (limiterExceeded : Bool) (now : Nat) (req : Request) (st : BDState) :
    GWDecision × BDState :=
  if limiterExceeded then (.reject 429 (some 60), st)
  else botDetection now req st

/-- The per-request decision order exactly as the spec's gateway section
words it (IP-block first, then rapid-request, then sliding-window limiter,
then bot classification), written only to compare against gateway; it is not
the order of the code. -/
def specOrderGateway (limiterExceeded : Bool) (now : Nat) (req : Request) (st : BDState) :
    GWDecision :=
  if st.blockedIPs.contains req.ip then .reject 403 (some 300)
  else
    let ipData1 := bumpedIpData now req st
    if now - ipData1.firstRequest < 10000 ∧ ipData1.count > RAPID_THRESHOLD then
      .reject 429 (some 60)
    else if limiterExceeded then .reject 429 (some 60)
    else
      let botInfo := analyzeBotSignature req
      if botInfo.isBot ∧ botInfo.botType = .bad then .reject 403 none
      else .proceed botInfo

/-- A request from an IP that is both in blockedIPs and over the global rate
limit: maximally ordinary browser metadata so that only the two gates at
issue can fire. -/
def cexReq : Request :=
  { ip := "203.0.113.5", path := "/",
    headers := [("user-agent",
      "Mozilla/5.0 (Windows NT 10.0; Win64; x64) AppleWebKit/537.36 Chrome/120 Safari/537.36"),
      ("referer", "https://example.com/")] }

def cexSt : BDState := { ipRequestCounts := [], blockedIPs := ["203.0.113.5"] }

/-- A Googlebot request that would otherwise score on every heuristic: no
referer on a non-API path, a suspicious header, a short user-agent with no
browser token. -/
def goodBotReq : Request :=
  { ip := "198.51.100.7", path := "/tools",
    headers := [("user-agent", "Googlebot"), ("x-forwarded-host", "evil.example")] }

/-- Two requests with identical classifier-visible metadata but different ip
and x-request-id. -/
def detReqA : Request :=
  { ip := "203.0.113.5", path := "/merge",
    headers := [("user-agent", "curl/8.0"), ("x-request-id", "req_a_1")] }

def detReqB : Request :=
  { ip := "198.51.100.7", path := "/merge",
    headers := [("user-agent", "curl/8.0"), ("x-request-id", "req_b_2")] }

/-! ## botDetection.js : manualBlockIP and its setTimeout expiry -/

/-- One manualBlockIP call for a fixed IP: the time the call was made and the
duration argument (300000 when the caller omits it). -/
abbrev BlockCall := Nat × Nat

/-- The runtime events the calls produce: each call adds the IP to blockedIPs
at its call time (flag true), and its setTimeout deletes the IP at call time
plus duration (flag false).  A later call does not cancel an earlier call's
timer. -/
def blockEvents (calls : List BlockCall) : List (Nat × Bool) :=
  calls.map (fun c => (c.1, true)) ++ calls.map (fun c => (c.1 + c.2, false))

/-- Membership of the IP in blockedIPs at time t: replay, in time order,
every event that has fired by t; the IP is present iff the last fired event
is an add.  Simultaneous events replay in program order; the theorems below
avoid such ties. -/
def isBlockedAt (calls : List BlockCall) (t : Nat) : Bool :=
  let fired := (blockEvents calls).filter (fun e => decide (e.1 ≤ t))
  (List.insertionSort (fun a b => a.1 ≤ b.1) fired).foldl (fun _ e => e.2) false

/-! ## requestLogger middleware and src/backend/routes/security.js -/

/-- A finished request-log entry, restricted to the fields the security
status route reads.  requestLogs is the in-memory array, newest last. -/
structure LogEntry where
  statusCode : Nat
  path : String := ""
  ip : String := ""
deriving Repr, DecidableEq

/-- requestLogs.slice(-limit).reverse() for a positive limit: the most recent
min(limit, length) entries, most recent first. -/
def getRecentLogs (limit : Nat) (requestLogs : List LogEntry) : List LogEntry :=
  (requestLogs.drop (requestLogs.length - limit)).reverse

/-- The status computation of GET /api/security/status
(src/backend/routes/security.js lines 13-36): count the 403/429 entries
among the 20 most recent logs and report "warning" when more than 5, else
"secure". -/
def securityStatus (requestLogs : List LogEntry) : String :=
  let recentLogs := getRecentLogs 20 requestLogs
  let suspiciousCount :=
    (recentLogs.filter (fun log => log.statusCode == 403 || log.statusCode == 429)).length
  if suspiciousCount > 5 then "warning" else "secure"

/-- Synthetic log of 500 entries of which 8 carry status 403 within the most
recent 20. -/
def sample500 : List LogEntry :=
  List.replicate 480 { statusCode := 200 } ++
    (List.replicate 8 { statusCode := 403 } ++ List.replicate 12 { statusCode := 200 })

/-! ## Analytics routes (src/unnamed/part_001) -/

/-- One daily bucket of the analytics store. -/
structure DailyStat where
  pageViews : Nat := 0
  toolUses : Nat := 0
  uniqueVisitors : Nat := 0
  filesProcessed : Nat := 0
  bytesProcessed : Nat := 0
  errors : Nat := 0
  pages : List (String × Nat) := []
  tools : List (String × Nat) := []
deriving Repr, DecidableEq

/-- The uniqueVisitors field as the dynamic JS value it is: a Set while
hydrated in memory, an Array as saveAnalytics writes it, or a plain object —
which is what JSON.stringify turns a Set into, a Set having no enumerable own
properties. -/
inductive VisVal where
  | set (vs : List String)
  | arr (vs : List String)
  | obj
deriving Repr, DecidableEq

/-- The analytics document (file layout and in-memory object coincide except
for the uniqueVisitors representation). -/
structure AnalyticsData where
  created : String := ""
  dailyStats : List (String × DailyStat) := []
  toolUsage : List (String × Nat) := []
  pageViews : List (String × Nat) := []
  sessions : List String := []
  totalPageViews : Nat := 0
  totalToolUses : Nat := 0
  uniqueVisitors : VisVal := .arr []
deriving Repr, DecidableEq

/-- saveAnalytics (part_001 lines 56-63): convert a Set to an Array for JSON
storage, leave any other representation as-is, and write the document. -/
def saveAnalytics (d : AnalyticsData) : AnalyticsData :=
  { d with uniqueVisitors :=
      match d.uniqueVisitors with
      | .set vs => .arr vs
      | v => v }

/-- The Set-rehydration step of getAnalytics (lines 44-47): an Array read
from disk becomes a Set; anything else is returned untouched. -/
def hydrateVisitors (d : AnalyticsData) : AnalyticsData :=
  { d with uniqueVisitors :=
      match d.uniqueVisitors with
      | .arr vs => .set vs
      | v => v }

/-- What res.json / JSON.stringify produces for an in-memory document: a Set
serialises as the empty plain object, an Array as itself. -/
def jsonSerialize (d : AnalyticsData) : AnalyticsData :=
  { d with uniqueVisitors :=
      match d.uniqueVisitors with
      | .set _ => .obj
      | v => v }

/-- Contents of the analytics file. -/
inductive FileContent where
  | absent
  | corrupted
  | stored (d : AnalyticsData)
deriving Repr, DecidableEq

/-- The freshly initialised document of initAnalyticsFile (lines 23-38); its
in-memory uniqueVisitors is new Set(). -/
def initialAnalytics (nowIso : String) : AnalyticsData :=
  { created := nowIso, uniqueVisitors := .set [] }

/-- initAnalyticsFile (lines 23-38): writes the initial document through
saveAnalytics only when the file does not exist; an existing file — even one
whose contents do not parse — is left untouched. -/
def initAnalyticsFile (f : FileContent) (nowIso : String) : FileContent :=
  match f with
  | .absent => .stored (saveAnalytics (initialAnalytics nowIso))
  | f => f

/-- getAnalytics (lines 41-53): parse and rehydrate the stored document; on a
read or parse failure, run initAnalyticsFile and re-parse WITHOUT
rehydration (the catch path returns the parse directly).  When the file
exists but is corrupted, initAnalyticsFile leaves it in place and the second
parse throws again — modelled as Except.error. -/
def getAnalytics (f : FileContent) (nowIso : String) : Except String AnalyticsData :=
  match f with
  | .stored d => .ok (hydrateVisitors d)
  | .absent =>
    match initAnalyticsFile .absent nowIso with
    | .stored d => .ok d
    | _ => .error "unreachable"
  | .corrupted =>
    match initAnalyticsFile .corrupted nowIso with
    | .stored d => .ok d
    | _ => .error "SyntaxError: Unexpected token in JSON"

/-- The unique-visitor count of the GET /api/analytics snapshot (lines
190-192): an Array reports its length, a Set its size, anything else 0 (the
optional-chained size of a plain object is undefined). -/
def uniqueVisitorCount (d : AnalyticsData) : Nat :=
  match d.uniqueVisitors with
  | .arr vs => vs.length
  | .set vs => vs.length
  | .obj => 0

/-- GET /api/analytics/export (lines 203-209): read the store and serialise
the in-memory document with res.json. -/
def exportAnalytics (f : FileContent) (nowIso : String) : Except String AnalyticsData :=
  (getAnalytics f nowIso).map jsonSerialize

/-- POST /api/analytics/import (lines 212-228): persist the posted document
through saveAnalytics.  (The dailyStats presence guard passes for every
exported document, whose dailyStats is always an object.) -/
def importAnalytics (doc : AnalyticsData) : FileContent :=
  .stored (saveAnalytics doc)

/-- A reachable analytics file: one daily bucket, lifetime totals, and one
recorded unique visitor (stored as an array, as saveAnalytics writes it). -/
def c4File : AnalyticsData :=
  { created := "2026-01-01T00:00:00.000Z",
    dailyStats := [("2026-10-10", { pageViews := 5, toolUses := 2 })],
    toolUsage := [("merge", 2)],
    totalPageViews := 5, totalToolUses := 2,
    uniqueVisitors := .arr ["visitor_1"] }

/-- cleanupOldData (part_001 lines 252-263) on the dailyStats map: sort the
keys ascending (Array.prototype.sort on these ASCII ISO dates is the string
order), and while more than 30 remain, shift the oldest off and delete its
bucket; the read-modify-write of the surrounding function preserves the rest
of the document. -/
def cleanupOldData (dailyStats : List (String × DailyStat)) : List (String × DailyStat) :=
  let dates := List.insertionSort (fun a b => a ≤ b) (dailyStats.map Prod.fst)
  let toDelete := dates.take (dates.length - 30)
  dailyStats.filter (fun p => !(toDelete.contains p.1))

/-- An analytics store with 35 populated dates. -/
def sampleStore : List (String × DailyStat) :=
  ["2026-09-01", "2026-09-02", "2026-09-03", "2026-09-04", "2026-09-05",
   "2026-09-06", "2026-09-07", "2026-09-08", "2026-09-09", "2026-09-10",
   "2026-09-11", "2026-09-12", "2026-09-13", "2026-09-14", "2026-09-15",
   "2026-09-16", "2026-09-17", "2026-09-18", "2026-09-19", "2026-09-20",
   "2026-09-21", "2026-09-22", "2026-09-23", "2026-09-24", "2026-09-25",
   "2026-09-26", "2026-09-27", "2026-09-28", "2026-09-29", "2026-09-30",
   "2026-10-01", "2026-10-02", "2026-10-03", "2026-10-04", "2026-10-05"].map
    (fun d => (d, { pageViews := 1 }))

/-! ## Theorems -/

/-- Invariant of an unblocked run of checkLimit: while every call time lies in
one window-sized interval and the total count stays at or below the maximum,
every call is allowed and the request list accumulates the call times. -/
theorem runResults_all_allowed (ts : List Nat) (acc : List Nat) (t0 : Nat)
    (hacc : ∀ x ∈ acc, t0 ≤ x ∧ x < t0 + RATE_LIMIT_WINDOW)
    (hts : ∀ x ∈ ts, t0 ≤ x ∧ x < t0 + RATE_LIMIT_WINDOW)
    (hlen : acc.length + ts.length ≤ MAX_REQUESTS_PER_WINDOW) :
    (∀ r ∈ (runResults ts ⟨acc, false, 0⟩).1, r.allowed = true) ∧
    (runResults ts ⟨acc, false, 0⟩).2 = ⟨acc ++ ts, false, 0⟩ := by
  induction ts generalizing acc with
  | nil => simp [runResults]
  | cons t rest ih =>
    have ht := hts t (List.mem_cons_self _ _)
    have hfilter : acc.filter (fun time => decide (t - time < RATE_LIMIT_WINDOW)) = acc := by
      apply List.filter_eq_self.mpr
      intro x hx
      have hxx := hacc x hx
      simp only [decide_eq_true_eq]
      omega
    have hlt : ¬ (MAX_REQUESTS_PER_WINDOW ≤ acc.length) := by
      simp only [List.length_cons] at hlen
      omega
    have hstep : checkLimit t ⟨acc, false, 0⟩ =
        ({ allowed := true, remaining := some (MAX_REQUESTS_PER_WINDOW - (acc.length + 1)) },
         ⟨acc ++ [t], false, 0⟩) := by
      simp [checkLimit, hfilter, hlt]
    have hnext : ∀ x ∈ acc ++ [t], t0 ≤ x ∧ x < t0 + RATE_LIMIT_WINDOW := by
      intro x hx
      rcases List.mem_append.mp hx with h | h
      · exact hacc x h
      · simp only [List.mem_singleton] at h
        subst h
        exact ht
    have hlen2 : (acc ++ [t]).length + rest.length ≤ MAX_REQUESTS_PER_WINDOW := by
      simp only [List.length_append, List.length_cons, List.length_nil] at hlen ⊢
      omega
    obtain ⟨ha, hs⟩ := ih (acc ++ [t]) hnext
      (fun x hx => hts x (List.mem_cons_of_mem _ hx)) hlen2
    constructor
    · intro r hr
      simp only [runResults, hstep] at hr
      rcases List.mem_cons.mp hr with h | h
      · subst h; rfl
      · exact ha r h
    · simp only [runResults, hstep, hs, List.append_assoc, List.singleton_append]

/-- C2: for the browser-side RateLimiter (src/js/security.js), after
MAX_REQUESTS_PER_WINDOW allowed checks within one WINDOW_MS window, the
(MAX+1)-th check at time t31 of the same window is rejected with
retryAfterSeconds = BLOCK_DURATION/1000 = 300; every subsequent check at a
time u before the block expiry is also rejected and leaves the limiter state
unchanged; and the first check at a time v at or after the expiry is allowed
again with a freshly reset window (requests = [v], full remaining quota
MAX_REQUESTS_PER_WINDOW - 1). -/
theorem checkLimit_escalating_block
    (ts : List Nat) (t0 t31 u v : Nat)
    (hlen : ts.length = MAX_REQUESTS_PER_WINDOW)
    (hts : ∀ x ∈ ts, t0 ≤ x ∧ x < t0 + RATE_LIMIT_WINDOW)
    (ht31a : t0 ≤ t31) (ht31b : t31 < t0 + RATE_LIMIT_WINDOW)
    (hu1 : t31 ≤ u) (hu2 : u < t31 + BLOCK_DURATION)
    (hv : t31 + BLOCK_DURATION ≤ v) :
    (∀ r ∈ (runResults ts initRLState).1, r.allowed = true) ∧
    (checkLimit t31 (runResults ts initRLState).2).1 =
      { allowed := false, reason := some "rate_limited",
        retryAfter := some (BLOCK_DURATION / 1000) } ∧
    (checkLimit u (checkLimit t31 (runResults ts initRLState).2).2).1.allowed = false ∧
    (checkLimit u (checkLimit t31 (runResults ts initRLState).2).2).2 =
      (checkLimit t31 (runResults ts initRLState).2).2 ∧
    (checkLimit v (checkLimit t31 (runResults ts initRLState).2).2).1 =
      { allowed := true, remaining := some (MAX_REQUESTS_PER_WINDOW - 1) } ∧
    (checkLimit v (checkLimit t31 (runResults ts initRLState).2).2).2 =
      ⟨[v], false, 0⟩ := by
  obtain ⟨hallowed, hstate⟩ :=
    runResults_all_allowed ts [] t0 (by simp) hts (by simp [hlen])
  have hstate' : (runResults ts initRLState).2 = ⟨ts, false, 0⟩ := by
    simpa [initRLState] using hstate
  have hfilter : ts.filter (fun time => decide (t31 - time < RATE_LIMIT_WINDOW)) = ts := by
    apply List.filter_eq_self.mpr
    intro x hx
    have hxx := hts x hx
    simp only [decide_eq_true_eq]
    omega
  have h31 : checkLimit t31 (runResults ts initRLState).2 =
      ({ allowed := false, reason := some "rate_limited",
         retryAfter := some ((BLOCK_DURATION + 999) / 1000) },
       ⟨ts, true, t31 + BLOCK_DURATION⟩) := by
    rw [hstate']
    simp [checkLimit, hfilter, hlen]
  have hucheck : checkLimit u (⟨ts, true, t31 + BLOCK_DURATION⟩ : RLState) =
      ({ allowed := false, reason := some "blocked",
         retryAfter := some ((t31 + BLOCK_DURATION - u + 999) / 1000) },
       ⟨ts, true, t31 + BLOCK_DURATION⟩) := by
    simp [checkLimit, hu2]
  have hvcheck : checkLimit v (⟨ts, true, t31 + BLOCK_DURATION⟩ : RLState) =
      ({ allowed := true, remaining := some (MAX_REQUESTS_PER_WINDOW - 1) },
       ⟨[v], false, 0⟩) := by
    have hnb : ¬ (v < t31 + BLOCK_DURATION) := by omega
    simp [checkLimit, hnb, show ¬ (MAX_REQUESTS_PER_WINDOW = 0) by decide]
  refine ⟨hallowed, ?_, ?_, ?_, ?_, ?_⟩
  · rw [h31]
    norm_num [BLOCK_DURATION]
  · rw [h31, hucheck]
  · rw [h31, hucheck]
  · rw [h31, hvcheck]
  · rw [h31, hvcheck]

/-- Witness for checkLimit_escalating_block: 30 checks in the first 30 ms of a
window, the 31st at 40 s (31 requests within 40 s of one window), a blocked
retry at 100 s, and a successful retry at 340 s. -/
theorem checkLimit_escalating_block_witness :
    ((List.range 30).length = MAX_REQUESTS_PER_WINDOW ∧
      (∀ x ∈ List.range 30, 0 ≤ x ∧ x < 0 + RATE_LIMIT_WINDOW) ∧
      (0 : Nat) ≤ 40000 ∧ 40000 < 0 + RATE_LIMIT_WINDOW ∧
      40000 ≤ 100000 ∧ 100000 < 40000 + BLOCK_DURATION ∧
      40000 + BLOCK_DURATION ≤ 340000) ∧
    ((∀ r ∈ (runResults (List.range 30) initRLState).1, r.allowed = true) ∧
      (checkLimit 40000 (runResults (List.range 30) initRLState).2).1 =
        { allowed := false, reason := some "rate_limited",
          retryAfter := some (BLOCK_DURATION / 1000) } ∧
      (checkLimit 100000
          (checkLimit 40000 (runResults (List.range 30) initRLState).2).2).1.allowed = false ∧
      (checkLimit 100000 (checkLimit 40000 (runResults (List.range 30) initRLState).2).2).2 =
        (checkLimit 40000 (runResults (List.range 30) initRLState).2).2 ∧
      (checkLimit 340000
          (checkLimit 40000 (runResults (List.range 30) initRLState).2).2).1 =
        { allowed := true, remaining := some (MAX_REQUESTS_PER_WINDOW - 1) } ∧
      (checkLimit 340000 (checkLimit 40000 (runResults (List.range 30) initRLState).2).2).2 =
        ⟨[340000], false, 0⟩) :=
  ⟨⟨by decide, by decide, by decide, by decide, by decide, by decide, by decide⟩,
    checkLimit_escalating_block (List.range 30) 0 40000 100000 340000
      (by decide) (by decide) (by decide) (by decide) (by decide) (by decide) (by decide)⟩

/-- C1 counterexample: with the global limiter exhausted and the request's IP
in blockedIPs, the chain of server.js answers the rate-limit 429 — so a
rate-limit rejection is produced before the IP-block check has run — while
the order the claim states would answer the IP-block 403. -/
theorem gateway_order_counterexample :
    (gateway true 1000 cexReq cexSt).1 = .reject 429 (some 60) ∧
    cexSt.blockedIPs.contains cexReq.ip = true ∧
    specOrderGateway true 1000 cexReq cexSt = .reject 403 (some 300) := by
  refine ⟨rfl, by decide, by decide⟩

/-- C1 amended: the chain short-circuits in the order: global sliding-window
rate limit (429, retryAfter 60) first, then IP-block (403, retryAfter 300),
then rapid-request (429, retryAfter 60), then bad-bot (403); a request that
survives all four proceeds carrying its bot verdict. -/
theorem gateway_decision_order (limiterExceeded : Bool) (now : Nat) (req : Request)
    (st : BDState) :
    (limiterExceeded = true →
      (gateway limiterExceeded now req st).1 = .reject 429 (some 60)) ∧
    (limiterExceeded = false → st.blockedIPs.contains req.ip = true →
      (gateway limiterExceeded now req st).1 = .reject 403 (some 300)) ∧
    (limiterExceeded = false → st.blockedIPs.contains req.ip = false →
      (now - (bumpedIpData now req st).firstRequest < 10000 ∧
        (bumpedIpData now req st).count > RAPID_THRESHOLD) →
      (gateway limiterExceeded now req st).1 = .reject 429 (some 60)) ∧
    (limiterExceeded = false → st.blockedIPs.contains req.ip = false →
      ¬ (now - (bumpedIpData now req st).firstRequest < 10000 ∧
        (bumpedIpData now req st).count > RAPID_THRESHOLD) →
      ((analyzeBotSignature req).isBot ∧ (analyzeBotSignature req).botType = .bad) →
      (gateway limiterExceeded now req st).1 = .reject 403 none) ∧
    (limiterExceeded = false → st.blockedIPs.contains req.ip = false →
      ¬ (now - (bumpedIpData now req st).firstRequest < 10000 ∧
        (bumpedIpData now req st).count > RAPID_THRESHOLD) →
      ¬ ((analyzeBotSignature req).isBot ∧ (analyzeBotSignature req).botType = .bad) →
      (gateway limiterExceeded now req st).1 = .proceed (analyzeBotSignature req)) := by
  refine ⟨?_, ?_, ?_, ?_, ?_⟩ <;> intro hlim
  · subst hlim; rfl
  all_goals subst hlim
  · intro hb
    have hmem : req.ip ∈ st.blockedIPs := by simpa using hb
    simp [gateway, botDetection, hmem]
  · intro hb hrapid
    have hmem : req.ip ∉ st.blockedIPs := by simpa using hb
    simp [gateway, botDetection, hmem, hrapid]
  · intro hb hrapid hbad
    have hmem : req.ip ∉ st.blockedIPs := by simpa using hb
    simp [gateway, botDetection, hmem, hrapid, hbad]
  · intro hb hrapid hbad
    have hmem : req.ip ∉ st.blockedIPs := by simpa using hb
    simp [gateway, botDetection, hmem, hrapid, hbad]

/-- Witness for gateway_decision_order: the blocked IP of the counterexample
request, with the limiter no longer exhausted, is rejected 403 retryAfter
300. -/
theorem gateway_decision_order_witness :
    (gateway false 1000 cexReq cexSt).1 = .reject 403 (some 300) :=
  (gateway_decision_order false 1000 cexReq cexSt).2.1 rfl (by decide)

/-- C10: a request whose IP is in blockedIPs is rejected by the bot-detection
gate with status 403 and the constant retryAfter of 300 seconds — for every
state, time and request, hence independent of how much of the block duration
remains and of the duration originally passed to manualBlockIP (neither
occurs in the response) — leaving the state unchanged; through the server
chain the same rejection is produced whenever the global limiter admits the
request. -/
theorem blockedIP_rejection_fixed (now : Nat) (req : Request) (st : BDState)
    (h : st.blockedIPs.contains req.ip = true) :
    botDetection now req st = (.reject 403 (some 300), st) ∧
    (gateway false now req st).1 = .reject 403 (some 300) := by
  have hmem : req.ip ∈ st.blockedIPs := by simpa using h
  constructor
  · simp [botDetection, hmem]
  · simp [gateway, botDetection, hmem]

/-- Witness for blockedIP_rejection_fixed at a concrete blocked IP. -/
theorem blockedIP_rejection_fixed_witness :
    cexSt.blockedIPs.contains cexReq.ip = true ∧
    botDetection 1000 cexReq cexSt = (.reject 403 (some 300), cexSt) :=
  ⟨by decide, (blockedIP_rejection_fixed 1000 cexReq cexSt (by decide)).1⟩

/-- C6: a user-agent matching a known-good crawler token makes
analyzeBotSignature return isBot = true, botType = good and suspiciousScore
exactly 0, for every request — whatever the empty-referer, suspicious-header,
short-user-agent or missing-browser-token heuristics would otherwise add —
because the known-good match returns immediately. -/
theorem goodBot_shortCircuit (req : Request)
    (h : GOOD_BOTS.any (containsCI (headerD req "user-agent")) = true) :
    analyzeBotSignature req = { isBot := true, botType := .good, suspiciousScore := 0 } := by
  simp [analyzeBotSignature, h]

/-- Witness for goodBot_shortCircuit. -/
theorem goodBot_shortCircuit_witness :
    GOOD_BOTS.any (containsCI (headerD goodBotReq "user-agent")) = true ∧
    analyzeBotSignature goodBotReq =
      { isBot := true, botType := .good, suspiciousScore := 0 } :=
  ⟨by decide, goodBot_shortCircuit goodBotReq (by decide)⟩

/-- C9: analyzeBotSignature is a deterministic pure function of the request
metadata it reads — user-agent, referer, the suspicious-header values and the
path: two requests agreeing on those, whatever their ip, method or other
headers, receive identical verdicts (same isBot, botType and
suspiciousScore).  In this model the classifier neither receives nor returns
any BDState, mirroring that the source function reads and writes none of the
module's mutable state. -/
theorem analyzeBotSignature_deterministic (r1 r2 : Request)
    (hua : headerD r1 "user-agent" = headerD r2 "user-agent")
    (href : headerD r1 "referer" = headerD r2 "referer")
    (hpath : r1.path = r2.path)
    (hsh : ∀ h ∈ SUSPICIOUS_HEADERS, headerD r1 h = headerD r2 h) :
    analyzeBotSignature r1 = analyzeBotSignature r2 := by
  have h1 : headerD r1 "x-forwarded-host" = headerD r2 "x-forwarded-host" :=
    hsh _ (by decide)
  have h2 : headerD r1 "x-original-url" = headerD r2 "x-original-url" :=
    hsh _ (by decide)
  have h3 : headerD r1 "x-rewrite-url" = headerD r2 "x-rewrite-url" :=
    hsh _ (by decide)
  simp only [analyzeBotSignature, SUSPICIOUS_HEADERS, List.foldl_cons, List.foldl_nil]
  rw [hua, href, hpath, h1, h2, h3]

/-- Witness for analyzeBotSignature_deterministic. -/
theorem analyzeBotSignature_deterministic_witness :
    (headerD detReqA "user-agent" = headerD detReqB "user-agent" ∧
      headerD detReqA "referer" = headerD detReqB "referer" ∧
      detReqA.path = detReqB.path ∧
      ∀ h ∈ SUSPICIOUS_HEADERS, headerD detReqA h = headerD detReqB h) ∧
    analyzeBotSignature detReqA = analyzeBotSignature detReqB :=
  ⟨⟨by decide, by decide, by decide, by decide⟩,
    analyzeBotSignature_deterministic detReqA detReqB
      (by decide) (by decide) (by decide) (by decide)⟩

theorem isBlockedAt_single_call (c1 d1 t : Nat) :
    isBlockedAt [(c1, d1)] t = (decide (c1 ≤ t) && decide (t < c1 + d1)) := by
  rcases Nat.lt_or_ge t c1 with h | h
  · have h1 : (decide (c1 ≤ t)) = false := decide_eq_false (by omega)
    have h2 : (decide (c1 + d1 ≤ t)) = false := decide_eq_false (by omega)
    simp [isBlockedAt, blockEvents, List.filter, h1, h2]
  · rcases Nat.lt_or_ge t (c1 + d1) with h' | h'
    · have h1 : (decide (c1 ≤ t)) = true := decide_eq_true h
      have h2 : (decide (c1 + d1 ≤ t)) = false := decide_eq_false (by omega)
      have h3 : (decide (t < c1 + d1)) = true := decide_eq_true h'
      simp [isBlockedAt, blockEvents, List.filter, List.insertionSort,
        List.orderedInsert, h1, h2, h3]
    · have h1 : (decide (c1 ≤ t)) = true := decide_eq_true h
      have h2 : (decide (c1 + d1 ≤ t)) = true := decide_eq_true h'
      have h3 : (decide (t < c1 + d1)) = false := decide_eq_false (by omega)
      have hle : c1 ≤ c1 + d1 := Nat.le_add_right _ _
      simp [isBlockedAt, blockEvents, List.filter, List.insertionSort,
        List.orderedInsert, h1, h2, h3, hle]

theorem isBlockedAt_two_calls (c1 d1 c2 d2 t : Nat)
    (h12 : c1 ≤ c2) (hre : c2 < c1 + d1) (hd2 : 0 < d2) :
    isBlockedAt [(c1, d1), (c2, d2)] t =
      (decide (c1 ≤ t) && decide (t < min (c1 + d1) (c2 + d2))) := by
  have hc2e1 : c2 ≤ c1 + d1 := by omega
  have hc2e2 : c2 ≤ c2 + d2 := by omega
  rcases Nat.lt_or_ge t c1 with hA | hA
  · have h1 : (decide (c1 ≤ t)) = false := decide_eq_false (by omega)
    have h2 : (decide (c2 ≤ t)) = false := decide_eq_false (by omega)
    have h3 : (decide (c1 + d1 ≤ t)) = false := decide_eq_false (by omega)
    have h4 : (decide (c2 + d2 ≤ t)) = false := decide_eq_false (by omega)
    simp [isBlockedAt, blockEvents, List.filter, h1, h2, h3, h4]
  · rcases Nat.lt_or_ge t c2 with hB | hB
    · have h1 : (decide (c1 ≤ t)) = true := decide_eq_true hA
      have h2 : (decide (c2 ≤ t)) = false := decide_eq_false (by omega)
      have h3 : (decide (c1 + d1 ≤ t)) = false := decide_eq_false (by omega)
      have h4 : (decide (c2 + d2 ≤ t)) = false := decide_eq_false (by omega)
      have h5 : (decide (t < min (c1 + d1) (c2 + d2))) = true := decide_eq_true (by omega)
      simp [isBlockedAt, blockEvents, List.filter, List.insertionSort,
        List.orderedInsert, h1, h2, h3, h4, h5] <;> omega
    · rcases Nat.lt_or_ge t (min (c1 + d1) (c2 + d2)) with hC | hC
      · have h1 : (decide (c1 ≤ t)) = true := decide_eq_true hA
        have h2 : (decide (c2 ≤ t)) = true := decide_eq_true hB
        have h3 : (decide (c1 + d1 ≤ t)) = false := decide_eq_false (by omega)
        have h4 : (decide (c2 + d2 ≤ t)) = false := decide_eq_false (by omega)
        have h5 : (decide (t < min (c1 + d1) (c2 + d2))) = true := decide_eq_true hC
        simp [isBlockedAt, blockEvents, List.filter, List.insertionSort,
          List.orderedInsert, h1, h2, h3, h4, h5, h12] <;> omega
      · have h1 : (decide (c1 ≤ t)) = true := decide_eq_true hA
        have h2 : (decide (c2 ≤ t)) = true := decide_eq_true hB
        have h5 : (decide (t < min (c1 + d1) (c2 + d2))) = false := decide_eq_false (by omega)
        rcases le_or_lt (c1 + d1) (c2 + d2) with hmin | hmin
        · have h3 : (decide (c1 + d1 ≤ t)) = true := decide_eq_true (by omega)
          rcases Nat.lt_or_ge t (c2 + d2) with hD | hD
          · have h4 : (decide (c2 + d2 ≤ t)) = false := decide_eq_false (by omega)
            simp [isBlockedAt, blockEvents, List.filter, List.insertionSort,
              List.orderedInsert, h1, h2, h3, h4, h5, h12, hc2e1] <;> omega
          · have h4 : (decide (c2 + d2 ≤ t)) = true := decide_eq_true hD
            simp [isBlockedAt, blockEvents, List.filter, List.insertionSort,
              List.orderedInsert, h1, h2, h3, h4, h5, h12, hc2e1, hmin] <;> omega
        · have h4 : (decide (c2 + d2 ≤ t)) = true := decide_eq_true (by omega)
          rcases Nat.lt_or_ge t (c1 + d1) with hD | hD
          · have h3 : (decide (c1 + d1 ≤ t)) = false := decide_eq_false (by omega)
            simp [isBlockedAt, blockEvents, List.filter, List.insertionSort,
              List.orderedInsert, h1, h2, h3, h4, h5, h12, hc2e2] <;> omega
          · have h3 : (decide (c1 + d1 ≤ t)) = true := decide_eq_true hD
            have hne : ¬ (c1 + d1 ≤ c2 + d2) := by omega
            simp [isBlockedAt, blockEvents, List.filter, List.insertionSort,
              List.orderedInsert, h1, h2, h3, h4, h5, h12, hc2e2, hne] <;> omega

/-- C3 counterexample: block the IP at time 0 for 10000 ms, then re-block
at 5000 — before the first expiry — for 2000 ms.  The later of the two
expiries is 10000, yet at t = 8000 the IP is no longer blocked (the second
call's timer deleted it at 7000): re-blocking did not replace the expiry and
shortened the blocked period, although the IP was blocked immediately after
the re-block. -/
theorem manualBlockIP_reblock_counterexample :
    isBlockedAt [(0, 10000), (5000, 2000)] 5000 = true ∧
    8000 < max (0 + 10000) (5000 + 2000) ∧
    isBlockedAt [(0, 10000), (5000, 2000)] 8000 = false := by
  refine ⟨by decide, by decide, by decide⟩

/-- C3 amended: a single manualBlockIP call at c1 for d1 ms makes isBlocked
true exactly from c1 until d1 ms have elapsed; but re-blocking at c2 before
the first expiry does not replace the expiry — both deletion timers stay
armed, so the IP is blocked exactly from c1 until the EARLIER of the two
expiries, and a re-block whose expiry is sooner shortens the blocked
period. -/
theorem manualBlockIP_timer_semantics (c1 d1 c2 d2 t : Nat)
    (h12 : c1 ≤ c2) (hre : c2 < c1 + d1) (hd2 : 0 < d2) :
    isBlockedAt [(c1, d1)] t = (decide (c1 ≤ t) && decide (t < c1 + d1)) ∧
    isBlockedAt [(c1, d1), (c2, d2)] t =
      (decide (c1 ≤ t) && decide (t < min (c1 + d1) (c2 + d2))) :=
  ⟨isBlockedAt_single_call c1 d1 t, isBlockedAt_two_calls c1 d1 c2 d2 t h12 hre hd2⟩

/-- Witness for manualBlockIP_timer_semantics at the counterexample's inputs. -/
theorem manualBlockIP_timer_semantics_witness :
    ((0 : Nat) ≤ 5000 ∧ 5000 < 0 + 10000 ∧ (0 : Nat) < 2000) ∧
    (isBlockedAt [(0, 10000)] 8000 = (decide ((0 : Nat) ≤ 8000) && decide (8000 < 0 + 10000)) ∧
      isBlockedAt [(0, 10000), (5000, 2000)] 8000 =
        (decide ((0 : Nat) ≤ 8000) && decide (8000 < min (0 + 10000) (5000 + 2000)))) :=
  ⟨⟨by decide, by decide, by decide⟩,
    manualBlockIP_timer_semantics 0 10000 5000 2000 8000 (by decide) (by decide) (by decide)⟩

/-- C7: the status endpoint reports "warning" iff strictly more than 5 of
the 20 most recently logged requests carry status 403 or 429; in every other
state it reports "secure". -/
theorem securityStatus_warning_iff (requestLogs : List LogEntry) :
    (securityStatus requestLogs = "warning" ↔
      5 < ((requestLogs.drop (requestLogs.length - 20)).filter
        (fun log => log.statusCode == 403 || log.statusCode == 429)).length) ∧
    (securityStatus requestLogs ≠ "warning" → securityStatus requestLogs = "secure") := by
  have hss : securityStatus requestLogs =
      if 5 < ((requestLogs.drop (requestLogs.length - 20)).filter
          (fun log => log.statusCode == 403 || log.statusCode == 429)).length
        then "warning" else "secure" := by
    simp only [securityStatus, getRecentLogs, List.filter_reverse, List.length_reverse]
  rw [hss]
  by_cases h : 5 < ((requestLogs.drop (requestLogs.length - 20)).filter
      (fun log => log.statusCode == 403 || log.statusCode == 429)).length
  · simp [h]
  · simp [h]

set_option maxRecDepth 4000 in
/-- Witness for securityStatus_warning_iff on the 500-entry scenario. -/
theorem securityStatus_warning_iff_witness :
    securityStatus sample500 = "warning" :=
  (securityStatus_warning_iff sample500).1.mpr (by decide)

/-- C5: getAnalytics on an analytics file that exists but fails to parse as
JSON does NOT reinitialise the store: initAnalyticsFile's existence guard
skips the rewrite, the re-parse throws again, and the error escapes the
function; only a missing file is reinitialised to the default document. -/
theorem getAnalytics_corrupted_throws :
    getAnalytics .corrupted "2026-10-11T00:00:00.000Z" =
      .error "SyntaxError: Unexpected token in JSON" ∧
    initAnalyticsFile .corrupted "2026-10-11T00:00:00.000Z" = .corrupted ∧
    getAnalytics .absent "2026-10-11T00:00:00.000Z" =
      .ok (saveAnalytics (initialAnalytics "2026-10-11T00:00:00.000Z")) :=
  ⟨rfl, rfl, rfl⟩

/-- C4: exporting and re-importing is not snapshot-identity.  The export
serialises the hydrated Set through res.json as an empty plain object, so
after importing the exported document the snapshot's unique-visitor count
drops from 1 to 0, although the daily buckets and lifetime totals do
survive the round trip. -/
theorem analytics_roundtrip_loses_visitors :
    (getAnalytics (.stored c4File) "2026-10-11T00:00:00.000Z").map uniqueVisitorCount =
      .ok 1 ∧
    exportAnalytics (.stored c4File) "2026-10-11T00:00:00.000Z" =
      .ok { c4File with uniqueVisitors := .obj } ∧
    (getAnalytics (importAnalytics { c4File with uniqueVisitors := .obj })
        "2026-10-11T00:00:00.000Z").map uniqueVisitorCount = .ok 0 ∧
    (getAnalytics (importAnalytics { c4File with uniqueVisitors := .obj })
        "2026-10-11T00:00:00.000Z").map AnalyticsData.dailyStats = .ok c4File.dailyStats ∧
    (getAnalytics (importAnalytics { c4File with uniqueVisitors := .obj })
        "2026-10-11T00:00:00.000Z").map AnalyticsData.totalPageViews =
      .ok c4File.totalPageViews :=
  ⟨rfl, rfl, rfl, rfl, rfl⟩

theorem countP_add_countP_not {α : Type} (p : α → Bool) (l : List α) :
    l.countP p + l.countP (fun a => !(p a)) = l.length := by
  induction l with
  | nil => simp
  | cons a l ih =>
    rcases hpa : p a with _ | _ <;>
      simp [List.countP_cons, hpa, List.length_cons] <;> omega

theorem countP_lt_length {α : Type} {p : α → Bool} {l : List α} {a : α}
    (ha : a ∈ l) (hpa : p a = false) : l.countP p < l.length := by
  have h1 := countP_add_countP_not p l
  have h2 : 0 < l.countP (fun b => !(p b)) :=
    List.countP_pos_iff.mpr ⟨a, ha, by simp [hpa]⟩
  omega

theorem contains_eq_decide_mem (td : List String) (x : String) :
    td.contains x = decide (x ∈ td) := by
  by_cases hmem : x ∈ td
  · simp [hmem]
  · simp [hmem]

/-- Core of the retention argument, for any strictly ascending enumeration s
of the bucket keys. -/
theorem retention_core (l : List (String × DailyStat)) (s : List String)
    (hperm : s.Perm (l.map Prod.fst))
    (hstrict : List.Pairwise (fun a b : String => a < b) s)
    (hlen : 30 < l.length) :
    (l.filter (fun p => !((s.take (s.length - 30)).contains p.1))).length = 30 ∧
    ∀ p ∈ l, (p ∈ l.filter (fun p => !((s.take (s.length - 30)).contains p.1)) ↔
      (l.filter (fun q => decide (p.1 < q.1))).length < 30) := by
  have hlenS : s.length = l.length := by
    rw [hperm.length_eq, List.length_map]
  set k := s.length - 30 with hk
  set td := s.take k with htd
  set kp := s.drop k with hkp
  have happ : td ++ kp = s := List.take_append_drop _ _
  have htd_len : td.length = k := by
    rw [htd, List.length_take]; omega
  have hkeep_len : kp.length = 30 := by
    rw [hkp, List.length_drop]; omega
  have hndS : s.Nodup := hstrict.imp (fun h => ne_of_lt h)
  have hdisj : ∀ x ∈ kp, x ∉ td := by
    intro x hxd hxt
    have h := hndS
    rw [← happ] at h
    exact (List.nodup_append.mp h).2.2 hxt hxd
  have hTL : ∀ a ∈ td, ∀ b ∈ kp, a < b := by
    have h := hstrict
    rw [← happ] at h
    exact fun a ha b hb => (List.pairwise_append.mp h).2.2 a ha b hb
  have hcnt_del : l.countP (fun p => td.contains p.1) = k := by
    have h1 : l.countP (fun p => td.contains p.1) =
        (l.map Prod.fst).countP (fun x => td.contains x) := by
      rw [List.countP_map]; rfl
    have h2 : (l.map Prod.fst).countP (fun x => td.contains x) =
        s.countP (fun x => td.contains x) := (hperm.countP_eq _).symm
    have h3 : s.countP (fun x => td.contains x) =
        td.countP (fun x => td.contains x) + kp.countP (fun x => td.contains x) := by
      conv_lhs => rw [← happ]
      rw [List.countP_append]
    have h4 : td.countP (fun x => td.contains x) = k := by
      have hall : ∀ a ∈ td, (fun x => td.contains x) a = true := by
        intro a ha
        show td.contains a = true
        rw [contains_eq_decide_mem]
        simpa using ha
      rw [List.countP_eq_length.mpr hall, htd_len]
    have h5 : kp.countP (fun x => td.contains x) = 0 := by
      rw [List.countP_eq_zero]
      intro a ha
      rw [contains_eq_decide_mem]
      simpa using hdisj a ha
    rw [h1, h2, h3, h4, h5]
    omega
  constructor
  · rw [← List.countP_eq_length_filter]
    have hnot := countP_add_countP_not (fun p : String × DailyStat => td.contains p.1) l
    simp only at hnot
    omega
  · intro p hp
    have hxs : p.1 ∈ s := hperm.mem_iff.mpr (List.mem_map_of_mem Prod.fst hp)
    have hmem_split : p.1 ∈ td ∨ p.1 ∈ kp := by
      rw [← List.mem_append, happ]; exact hxs
    have hcntGT : (l.filter (fun q => decide (p.1 < q.1))).length =
        td.countP (fun y => decide (p.1 < y)) + kp.countP (fun y => decide (p.1 < y)) := by
      rw [← List.countP_eq_length_filter]
      have h1 : l.countP (fun q => decide (p.1 < q.1)) =
          (l.map Prod.fst).countP (fun y => decide (p.1 < y)) := by
        rw [List.countP_map]; rfl
      have h2 : (l.map Prod.fst).countP (fun y => decide (p.1 < y)) =
          s.countP (fun y => decide (p.1 < y)) := (hperm.countP_eq _).symm
      rw [h1, h2]
      conv_lhs => rw [← happ]
      rw [List.countP_append]
    have hmemfil : p ∈ l.filter (fun p => !(td.contains p.1)) ↔
        (td.contains p.1) = false := by
      rw [List.mem_filter]
      simp [hp]
    rcases hmem_split with hin | hin
    · have hLHS : ¬ ((td.contains p.1) = false) := by
        rw [contains_eq_decide_mem]
        simp [hin]
      have hdropfull : kp.countP (fun y => decide (p.1 < y)) = 30 := by
        have hall : ∀ b ∈ kp, (fun y => decide (p.1 < y)) b = true := by
          intro b hb
          simpa using hTL _ hin b hb
        rw [List.countP_eq_length.mpr hall, hkeep_len]
      constructor
      · intro h; exact absurd (hmemfil.mp h) hLHS
      · intro h
        rw [hcntGT, hdropfull] at h
        omega
    · have hLHS : (td.contains p.1) = false := by
        rw [contains_eq_decide_mem]
        simpa using hdisj _ hin
      have htake0 : td.countP (fun y => decide (p.1 < y)) = 0 := by
        rw [List.countP_eq_zero]
        intro a ha
        have hlt := hTL a ha _ hin
        simp only [decide_eq_true_eq]
        exact lt_asymm hlt
      have hdroplt : kp.countP (fun y => decide (p.1 < y)) < 30 := by
        have := countP_lt_length (p := fun y => decide (p.1 < y)) hin (by simp)
        omega
      constructor
      · intro _
        rw [hcntGT, htake0]
        omega
      · intro _
        exact hmemfil.mpr hLHS

/-- C8: one run of cleanupOldData on a store with more than 30 dated buckets
(distinct keys, as JS object keys are) leaves exactly 30 buckets, and a
bucket survives iff its date is among the 30 most recent — i.e. iff fewer
than 30 buckets have a strictly later date — regardless of the buckets'
contents. -/
theorem cleanupOldData_keeps_30_most_recent (l : List (String × DailyStat))
    (hnd : (l.map Prod.fst).Nodup) (hlen : 30 < l.length) :
    (cleanupOldData l).length = 30 ∧
    ∀ p ∈ l, (p ∈ cleanupOldData l ↔
      (l.filter (fun q => decide (p.1 < q.1))).length < 30) := by
  have hperm : List.Perm (List.insertionSort (fun a b : String => a ≤ b) (l.map Prod.fst))
      (l.map Prod.fst) := List.perm_insertionSort _ _
  have hsorted : List.Sorted (fun a b : String => a ≤ b)
      (List.insertionSort (fun a b : String => a ≤ b) (l.map Prod.fst)) :=
    List.sorted_insertionSort _ _
  have hndS : (List.insertionSort (fun a b : String => a ≤ b) (l.map Prod.fst)).Nodup :=
    hperm.nodup_iff.mpr hnd
  have hstrict : List.Pairwise (fun a b : String => a < b)
      (List.insertionSort (fun a b : String => a ≤ b) (l.map Prod.fst)) :=
    (List.Pairwise.and hsorted hndS).imp (fun h => lt_of_le_of_ne h.1 h.2)
  have hcore := retention_core l _ hperm hstrict hlen
  have heq : cleanupOldData l =
      l.filter (fun p =>
        !(((List.insertionSort (fun a b : String => a ≤ b) (l.map Prod.fst)).take
          ((List.insertionSort (fun a b : String => a ≤ b) (l.map Prod.fst)).length - 30)).contains
          p.1)) := rfl
  rw [heq]
  exact hcore

set_option maxRecDepth 8000 in
/-- Witness for cleanupOldData_keeps_30_most_recent on the 35-date store. -/
theorem cleanupOldData_keeps_30_most_recent_witness :
    ((sampleStore.map Prod.fst).Nodup ∧ 30 < sampleStore.length) ∧
    ((cleanupOldData sampleStore).length = 30 ∧
      ∀ p ∈ sampleStore, (p ∈ cleanupOldData sampleStore ↔
        (sampleStore.filter (fun q => decide (p.1 < q.1))).length < 30)) :=
  ⟨⟨by decide, by decide⟩,
    cleanupOldData_keeps_30_most_recent sampleStore (by decide) (by decide)⟩

end PdfTools
